import Mathlib

/-!
Verification development for the kuzzle-ubuntu-arm64 repository.

Part 1 embeds `src/lib/core/backend/backendController.ts` (the
`BackendController` class: `register`, `use` and the private `add`).
Part 2 embeds, from the specification, the real-time engine components
(filter matching, room registry, scope tracker) and the typed request
argument accessor, whose implementations are not part of the sources.
-/

set_option maxHeartbeats 1000000

namespace Kuzzle

/-- A JavaScript value stored as an action handler: either a function value
(carrying its `name` property and whether it has been bound to a controller
instance), or any non-function value (`typeof handler !== "function"`). -/
inductive Handler where
  | jsFunction (fname : String) (bound : Bool)
  | notAFunction
deriving DecidableEq

/-- `typeof definition.handler === "function"`. -/
def Handler.isFunction : Handler → Bool
  | .jsFunction _ _ => true
  | .notAFunction => false

/-- One entry of a controller definition's `actions` map. -/
structure ActionDefinition where
  handler : Handler
deriving DecidableEq

/-- A controller definition: its `actions` map, in `Object.entries` order. -/
structure ControllerDefinition where
  actions : List (String × ActionDefinition)
deriving DecidableEq

/-- The application state visible to `BackendController`: the `started` flag
and the `_controllers` map (association list, in insertion order). -/
structure ApplicationState where
  started : Bool
  controllers : List (String × ControllerDefinition)
deriving DecidableEq

/-- A controller instance passed to `use`: its optional `name` property, its
class (`constructor`) name, the names of its instance methods that are
functions, and its `definition` property. -/
structure Controller where
  name : Option String
  constructorName : String
  methods : List String
  definition : ControllerDefinition

/-- Kuzzle error objects as produced by `kerror.wrap("plugin", "runtime")` and
`kerror.wrap("plugin", "assert")`: the error id and its placeholder
arguments. -/
inductive KError where
  | runtime (id : String) (placeholder : String)
  | assertion (id : String) (controllerName : String) (message : String)
deriving DecidableEq

/-- Modelled from the spec: `Inflector.kebabCase` (imported from
`../../util/inflector`, not among the sources). Per the documentation comment
of `use`, "PaymentSolutionController" becomes "payment-solution-controller"
before the "-controller" suffix is stripped: an upper-case letter starts a
new dash-separated lower-case word. -/
def kebabCase (s : String) : String :=
  String.mk (s.data.foldl (fun acc c =>
    if c.isUpper then
      if acc.isEmpty then acc ++ [c.toLower] else acc ++ ['-', c.toLower]
    else acc ++ [c]) [])

/-- JavaScript `String.prototype.replace` with a string pattern replaces only
the first occurrence. -/
def replaceFirst (s pat repl : String) : String :=
  match s.splitOn pat with
  | [] => s
  | [t] => t
  | t :: u :: rest => t ++ repl ++ String.intercalate pat (u :: rest)

/-- The controller name after the inference step of `use`: when
`controller.name` is falsy (absent or empty), it is set to
`Inflector.kebabCase(controller.constructor.name).replace("-controller", "")`. -/
def Controller.resolvedName (c : Controller) : String :=
  match c.name with
  | some n => if n.isEmpty then replaceFirst (kebabCase c.constructorName) "-controller" "" else n
  | none => replaceFirst (kebabCase c.constructorName) "-controller" ""

/-- Modelled from the spec: `Plugin.checkControllerDefinition` is imported
from `../plugin/plugin`, which is not among the sources. Per the spec,
controller registration is "rejected if any declared action handler is not
invocable" with the `InvalidControllerDefinition` assertion error; the model
rejects the first declared action whose handler is not a function, with the
message format of the in-source handler check of `use`. -/
def checkControllerDefinition (cname : String) (d : ControllerDefinition) : Option KError :=
  match d.actions.find? (fun a => !a.2.handler.isFunction) with
  | some a => some (.assertion "invalid_controller_definition" cname
      ("Handler for action \"" ++ a.1 ++ "\" is not a function."))
  | none => none

/-- `BackendController.add` (private): rejects a duplicate controller name,
otherwise stores the definition in `_controllers`. The result is the thrown
error (if any) paired with the application state after the call. -/
def add (app : ApplicationState) (cname : String) (d : ControllerDefinition) :
    Option KError × ApplicationState :=
  if (app.controllers.lookup cname).isSome then
    (some (.assertion "invalid_controller_definition" cname
      "A controller with this name already exists"), app)
  else
    (none, { app with controllers := app.controllers ++ [(cname, d)] })

/-- `BackendController.register`: rejects a started application, then checks
the definition, then delegates to `add`. -/
def register (app : ApplicationState) (cname : String) (d : ControllerDefinition) :
    Option KError × ApplicationState :=
  if app.started then
    (some (.runtime "already_started" "controller"), app)
  else
    match checkControllerDefinition cname d with
    | some e => (some e, app)
    | none => add app cname d

/-- The `for (const [action, definition] of Object.entries(...))` loop of
`use`: throws on the first non-function handler, and binds an instance-method
handler (a named function that is also a method of the controller) to the
controller instance. -/
def bindActions (c : Controller) (cname : String) :
    List (String × ActionDefinition) → Except KError (List (String × ActionDefinition))
  | [] => .ok []
  | (action, adef) :: rest =>
    match adef.handler with
    | .notAFunction =>
      .error (.assertion "invalid_controller_definition" cname
        ("Handler for action \"" ++ action ++ "\" is not a function."))
    | .jsFunction fname bound =>
      let newHandler : Handler :=
        if !fname.isEmpty && c.methods.contains fname then .jsFunction fname true
        else .jsFunction fname bound
      match bindActions c cname rest with
      | .ok restOut => .ok ((action, ⟨newHandler⟩) :: restOut)
      | .error e => .error e

/-- `BackendController.use`: rejects a started application, resolves the
controller name, checks the definition, validates and binds the action
handlers, then delegates to `add`. -/
def use (app : ApplicationState) (c : Controller) : Option KError × ApplicationState :=
  if app.started then
    (some (.runtime "already_started" "controller"), app)
  else
    match checkControllerDefinition c.resolvedName c.definition with
    | some e => (some e, app)
    | none =>
      match bindActions c c.resolvedName c.definition.actions with
      | .error e => (some e, app)
      | .ok boundActions => add app c.resolvedName ⟨boundActions⟩

/-!
Part 2: the real-time engine. The engine implementation is not among the
sources (only its documentation pages are), so the following definitions are
modelled from the specification.
-/

/-- Modelled from the spec: JSON document values (document bodies, request
arguments). -/
inductive JsonVal where
  | null
  | boolVal (b : Bool)
  | num (n : Int)
  | str (s : String)
  | arr (elems : List JsonVal)
  | obj (fields : List (String × JsonVal))

/-- Modelled from the spec: scalar JSON values, the comparison operands of
leaf predicates. -/
inductive ScalarVal where
  | null
  | boolVal (b : Bool)
  | num (n : Int)
  | str (s : String)
deriving DecidableEq

/-- Does a document value equal a scalar comparison operand? -/
def scalarMatches : JsonVal → ScalarVal → Bool
  | .null, .null => true
  | .boolVal a, .boolVal b => a == b
  | .num a, .num b => a == b
  | .str a, .str b => a == b
  | _, _ => false

/-- Splits the characters of a lodash-style path: `.` and `[` end a segment,
`]` is dropped, so `relations.items[0]` yields `relations`, `items`, `0`. -/
def splitSegsAux : List Char → List Char → List (List Char)
  | [], acc => [acc.reverse]
  | c :: cs, acc =>
    if c == '.' || c == '[' then acc.reverse :: splitSegsAux cs []
    else if c == ']' then splitSegsAux cs acc
    else splitSegsAux cs (c :: acc)

/-- Modelled from the spec: lodash-style dotted/bracketed path addressing
(`relations.items[0]`), cut into segments. -/
def pathSegments (p : String) : List String :=
  (splitSegsAux p.data []).map String.mk

/-- Decimal value of a digit list. -/
def digitsVal (ds : List Char) : Nat :=
  ds.foldl (fun acc c => acc * 10 + (c.toNat - '0'.toNat)) 0

/-- A path segment read as an array index. -/
def segToNat? (s : String) : Option Nat :=
  if s.data.isEmpty then none
  else if s.data.all Char.isDigit then some (digitsVal s.data)
  else none

/-- One path-segment step into a JSON value: object field lookup, or array
indexing when the segment is numeric. -/
def JsonVal.getField : JsonVal → String → Option JsonVal
  | .obj fields, k => fields.lookup k
  | .arr elems, k =>
    match segToNat? k with
    | some i => elems.get? i
    | none => none
  | _, _ => none

/-- Walks the remaining path segments into a JSON value. -/
def JsonVal.getPathAux : JsonVal → List String → Option JsonVal
  | v, [] => some v
  | v, s :: rest =>
    match v.getField s with
    | some w => w.getPathAux rest
    | none => none

/-- Modelled from the spec: a document snapshot handed to the engine — its
identified content, a JSON object given as a field list in storage order. -/
structure Document where
  fields : List (String × JsonVal)

/-- Modelled from the spec: nested field addressing into a document; a field
absent at the path yields `none`. -/
def Document.getPath (d : Document) (p : String) : Option JsonVal :=
  match pathSegments p with
  | [] => none
  | s :: rest =>
    match d.fields.lookup s with
    | some v => v.getPathAux rest
    | none => none

/-- Modelled from the spec: the filter expression tree — a closed sum of leaf
predicates (equality, range, existence and its negation, text match, geo
bounding box, geo distance) and the AND/OR/NOT combinators. The geo leaves
read `lat`/`lon` number sub-fields and compare with integer planar
coordinates (distance compared squared). -/
inductive FilterExpression where
  | equalsF (path : String) (value : ScalarVal)
  | rangeF (path : String) (lo : Option Int) (loIncl : Bool) (hi : Option Int) (hiIncl : Bool)
  | existsF (path : String)
  | missingF (path : String)
  | textF (path : String) (pat : String)
  | geoBoundingBoxF (path : String) (minLat maxLat minLon maxLon : Int)
  | geoDistanceF (path : String) (lat lon dist : Int)
  | andF (l r : FilterExpression)
  | orF (l r : FilterExpression)
  | notF (f : FilterExpression)

/-- Is `pat` a substring of `s`? (The text-match leaf predicate.) -/
def strContains (s pat : String) : Bool :=
  pat.isEmpty || (s.splitOn pat).length ≥ 2

/-- Modelled from the spec: `matches(filter, document) -> bool`. Pure and
total; an absent field makes equality/range/text predicates false and the
existence-negation predicate true; AND/OR evaluate left-to-right. -/
def matchesF : FilterExpression → Document → Bool
  | .equalsF p v, d =>
    match d.getPath p with
    | some w => scalarMatches w v
    | none => false
  | .rangeF p lo loIncl hi hiIncl, d =>
    match d.getPath p with
    | some (.num n) =>
      (match lo with
       | none => true
       | some l => if loIncl then decide (l ≤ n) else decide (l < n)) &&
      (match hi with
       | none => true
       | some h => if hiIncl then decide (n ≤ h) else decide (n < h))
    | _ => false
  | .existsF p, d => (d.getPath p).isSome
  | .missingF p, d => (d.getPath p).isNone
  | .textF p pat, d =>
    match d.getPath p with
    | some (.str s) => strContains s pat
    | _ => false
  | .geoBoundingBoxF p minLat maxLat minLon maxLon, d =>
    match d.getPath p with
    | some v =>
      match v.getField "lat", v.getField "lon" with
      | some (.num la), some (.num lo2) =>
        decide (minLat ≤ la) && decide (la ≤ maxLat) &&
        decide (minLon ≤ lo2) && decide (lo2 ≤ maxLon)
      | _, _ => false
    | none => false
  | .geoDistanceF p lat lon dist, d =>
    match d.getPath p with
    | some v =>
      match v.getField "lat", v.getField "lon" with
      | some (.num la), some (.num lo2) =>
        decide ((la - lat) * (la - lat) + (lo2 - lon) * (lo2 - lon) ≤ dist * dist)
      | _, _ => false
    | none => false
  | .andF l r, d => if matchesF l d then matchesF r d else false
  | .orF l r, d => if matchesF l d then true else matchesF r d
  | .notF f, d => !(matchesF f d)

/-- Modelled from the spec: the kinds of document-change events evaluated by
the Scope Tracker (real-time message publications carry no document identity,
never touch ScopeEntry state, and are out of this model). -/
inductive EventKind where
  | write
  | delete

/-- Modelled from the spec: the per-Room ScopeEntry state — the document ids
whose entry is `true` ("currently in scope"); an id with no entry is treated
as "not previously in scope", and an entry is deleted as soon as its value
would become `false`. -/
abbrev RoomScope := List String

/-- The scope value carried by an emitted document notification. -/
structure DocNotification where
  scope : String
  docId : String
deriving DecidableEq

/-- Modelled from the spec: the transition table of the Scope Tracker.
`wasIn=false, nowIn=true → "in"`; `wasIn=true, nowIn=false → "out"`;
`wasIn=true, nowIn=true → "in"`; `wasIn=false, nowIn=false → none`. -/
def scopeTransition : Bool → Bool → Option String
  | false, true => some "in"
  | true, false => some "out"
  | true, true => some "in"
  | false, false => none

/-- Modelled from the spec: one Scope Tracker evaluation of an event against
one Room: read `wasIn` (default false), evaluate the filter (a deletion
counts as no match), emit the transition notification, persist `nowIn`
(deleting the entry when false). -/
def processEvent (st : RoomScope) (f : FilterExpression) (kind : EventKind)
    (docId : String) (doc : Document) : List DocNotification × RoomScope :=
  let wasIn := st.contains docId
  let nowIn :=
    match kind with
    | .delete => false
    | .write => matchesF f doc
  let notifs :=
    match scopeTransition wasIn nowIn with
    | some sc => [⟨sc, docId⟩]
    | none => []
  let st' :=
    if nowIn then (if wasIn then st else docId :: st)
    else st.filter (fun x => x != docId)
  (notifs, st')

/-- A malformed path is one that is empty or has an empty segment. -/
def validPath (p : String) : Bool :=
  !p.isEmpty && (pathSegments p).all (fun s => !s.isEmpty)

/-- Modelled from the spec: `register` "fails with InvalidFilter if the filter
tree contains an unsupported operator or a malformed path"; the closed sum
type has no unsupported operator, so validity is path well-formedness. -/
def FilterExpression.valid : FilterExpression → Bool
  | .equalsF p _ => validPath p
  | .rangeF p _ _ _ _ => validPath p
  | .existsF p => validPath p
  | .missingF p => validPath p
  | .textF p _ => validPath p
  | .geoBoundingBoxF p _ _ _ _ => validPath p
  | .geoDistanceF p _ _ _ => validPath p
  | .andF l r => l.valid && r.valid
  | .orF l r => l.valid && r.valid
  | .notF f => f.valid

/-- Serialization of a scalar comparison operand. -/
def ScalarVal.serialize : ScalarVal → String
  | .null => "null"
  | .boolVal b => toString b
  | .num n => toString n
  | .str s => "str:" ++ s

/-- Serialization of an optional range bound. -/
def serializeBound : Option Int → String
  | none => "none"
  | some n => toString n

/-- Canonical structural serialization of a filter tree, the basis of the
Room key. -/
def serializeFilter : FilterExpression → String
  | .equalsF p v => "equals(" ++ p ++ "," ++ v.serialize ++ ")"
  | .rangeF p lo loIncl hi hiIncl =>
    "range(" ++ p ++ "," ++ serializeBound lo ++ "," ++ toString loIncl ++ "," ++
      serializeBound hi ++ "," ++ toString hiIncl ++ ")"
  | .existsF p => "exists(" ++ p ++ ")"
  | .missingF p => "missing(" ++ p ++ ")"
  | .textF p pat => "text(" ++ p ++ "," ++ pat ++ ")"
  | .geoBoundingBoxF p a b c d =>
    "geoBoundingBox(" ++ p ++ "," ++ toString a ++ "," ++ toString b ++ "," ++
      toString c ++ "," ++ toString d ++ ")"
  | .geoDistanceF p la lo dist =>
    "geoDistance(" ++ p ++ "," ++ toString la ++ "," ++ toString lo ++ "," ++
      toString dist ++ ")"
  | .andF l r => "and(" ++ serializeFilter l ++ "," ++ serializeFilter r ++ ")"
  | .orF l r => "or(" ++ serializeFilter l ++ "," ++ serializeFilter r ++ ")"
  | .notF f => "not(" ++ serializeFilter f ++ ")"

/-- Modelled from the spec: filter normalization — the AND/OR combinators are
put in a canonical operand order, so structurally equivalent filters share a
Room key. -/
def normalize : FilterExpression → FilterExpression
  | .andF l r =>
    let ln := normalize l
    let rn := normalize r
    if serializeFilter rn < serializeFilter ln then .andF rn ln else .andF ln rn
  | .orF l r =>
    let ln := normalize l
    let rn := normalize r
    if serializeFilter rn < serializeFilter ln then .orF rn ln else .orF ln rn
  | .notF f => .notF (normalize f)
  | f => f

/-- Modelled from the spec: the Room id is the canonical structural hash of
(index, collection, normalized filter), modelled as their canonical
serialization. -/
def roomIdOf (index collection : String) (f : FilterExpression) : String :=
  index ++ "/" ++ collection ++ "/" ++ serializeFilter (normalize f)

/-- Modelled from the spec: a Room — id (= filter hash), index, collection and
the logical reference count incremented by `register`. -/
structure Room where
  id : String
  index : String
  collection : String
  refCount : Nat
deriving DecidableEq

/-- Modelled from the spec: a Subscriber attached to a Room, addressed by an
integer subscription handle. -/
structure Subscriber where
  handleId : Nat
  connectionId : String
  roomId : String
  volatileData : List (String × ScalarVal)
deriving DecidableEq

/-- The errors of the Room Registry operations. -/
inductive EngineError where
  | invalidFilter
  | roomNotFound
deriving DecidableEq

/-- Modelled from the spec: the Room Registry state of one node — the
registered Rooms, the attached Subscribers and the next free handle. -/
structure Registry where
  rooms : List Room
  subscribers : List Subscriber
  nextHandle : Nat
deriving DecidableEq

/-- Modelled from the spec: `register(index, collection, filter) -> RoomId` —
rejects an invalid filter, returns the id of an equivalent existing Room
(bumping its reference count) or creates the Room with count one. -/
def Registry.register (reg : Registry) (index collection : String)
    (f : FilterExpression) : Except EngineError (String × Registry) :=
  if f.valid then
    let rid := roomIdOf index collection f
    if reg.rooms.any (fun r => r.id == rid) then
      .ok (rid, { reg with rooms := reg.rooms.map (fun r =>
        if r.id == rid then { r with refCount := r.refCount + 1 } else r) })
    else
      .ok (rid, { reg with rooms :=
        reg.rooms ++ [{ id := rid, index := index, collection := collection, refCount := 1 }] })
  else
    .error .invalidFilter

/-- Modelled from the spec: `subscribe(roomId, connectionId, volatileData) ->
SubscriptionHandle` — fails with `RoomNotFound` on a stale room id. -/
def Registry.subscribe (reg : Registry) (roomId connectionId : String)
    (volatileData : List (String × ScalarVal)) : Except EngineError (Nat × Registry) :=
  if reg.rooms.any (fun r => r.id == roomId) then
    .ok (reg.nextHandle, { reg with
      subscribers := reg.subscribers ++
        [{ handleId := reg.nextHandle, connectionId := connectionId,
           roomId := roomId, volatileData := volatileData }]
      nextHandle := reg.nextHandle + 1 })
  else
    .error .roomNotFound

/-- Modelled from the spec: `unsubscribe(handle)` — removes the Subscriber;
when the Room's subscriber count reaches zero the Room is destroyed. -/
def Registry.unsubscribe (reg : Registry) (h : Nat) : Registry :=
  match reg.subscribers.find? (fun x => x.handleId == h) with
  | none => reg
  | some s =>
    let remaining := reg.subscribers.filter (fun x => x.handleId != h)
    if remaining.any (fun x => x.roomId == s.roomId) then
      { reg with subscribers := remaining }
    else
      { reg with
        subscribers := remaining
        rooms := reg.rooms.filter (fun r => r.id != s.roomId) }

/-- Modelled from the spec: `roomsFor(index, collection)` — the ids of all
Rooms currently registered for that index and collection. -/
def Registry.roomsFor (reg : Registry) (index collection : String) : List String :=
  (reg.rooms.filter (fun r => r.index == index && r.collection == collection)).map
    (fun r => r.id)

/-!
The typed request-argument accessor of `KuzzleRequest` (`getObject` /
`getArray`): its implementation is not among the sources, only its
documentation pages are, so it is modelled from the spec together with the
JSON parsing its HTTP coercion relies on.
-/

/-- The opening-brace character of JSON object syntax. -/
def lbrace : Char := Char.ofNat 123

/-- The closing-brace character of JSON object syntax. -/
def rbrace : Char := Char.ofNat 125

/-- Is this character JSON whitespace? -/
def jsonWs (c : Char) : Bool :=
  c == ' ' || c == '\t' || c == '\n' || c == '\r'

/-- Drops leading JSON whitespace. -/
def skipWs : List Char → List Char
  | [] => []
  | c :: cs => if jsonWs c then skipWs cs else c :: cs

/-- Takes the leading run of decimal digits. -/
def takeDigits : List Char → List Char × List Char
  | [] => ([], [])
  | c :: cs =>
    if c.isDigit then
      let (ds, rest) := takeDigits cs
      (c :: ds, rest)
    else
      ([], c :: cs)

/-- Reads the characters of a JSON string literal up to its closing quote,
resolving backslash escapes. -/
def parseStringChars : Nat → List Char → Option (List Char × List Char)
  | 0, _ => none
  | _, [] => none
  | fuel + 1, c :: cs =>
    if c == '"' then some ([], cs)
    else if c == '\\' then
      match cs with
      | [] => none
      | e :: cs2 =>
        let ec : Char :=
          if e == 'n' then '\n'
          else if e == 't' then '\t'
          else if e == 'r' then '\r'
          else e
        match parseStringChars fuel cs2 with
        | some (out, rest) => some (ec :: out, rest)
        | none => none
    else
      match parseStringChars fuel cs with
      | some (out, rest) => some (c :: out, rest)
      | none => none

mutual

/-- Fuel-bounded JSON value parser: null, booleans, integers, strings,
arrays, objects. -/
def parseVal : Nat → List Char → Option (JsonVal × List Char)
  | 0, _ => none
  | fuel + 1, cs =>
    match skipWs cs with
    | [] => none
    | c :: rest =>
      if c == 'n' then
        match rest with
        | 'u' :: 'l' :: 'l' :: rest2 => some (.null, rest2)
        | _ => none
      else if c == 't' then
        match rest with
        | 'r' :: 'u' :: 'e' :: rest2 => some (.boolVal true, rest2)
        | _ => none
      else if c == 'f' then
        match rest with
        | 'a' :: 'l' :: 's' :: 'e' :: rest2 => some (.boolVal false, rest2)
        | _ => none
      else if c == '"' then
        match parseStringChars (fuel + 1) rest with
        | some (out, rest2) => some (.str (String.mk out), rest2)
        | none => none
      else if c == '-' then
        match takeDigits rest with
        | ([], _) => none
        | (ds, rest2) => some (.num (-(Int.ofNat (digitsVal ds))), rest2)
      else if c.isDigit then
        match takeDigits (c :: rest) with
        | ([], _) => none
        | (ds, rest2) => some (.num (Int.ofNat (digitsVal ds)), rest2)
      else if c == '[' then
        match skipWs rest with
        | ']' :: rest2 => some (.arr [], rest2)
        | _ =>
          match parseElems fuel rest with
          | some (vs, rest2) => some (.arr vs, rest2)
          | none => none
      else if c == lbrace then
        match skipWs rest with
        | [] => none
        | c2 :: rest2 =>
          if c2 == rbrace then some (.obj [], rest2)
          else
            match parseFields fuel rest with
            | some (fs, rest3) => some (.obj fs, rest3)
            | none => none
      else none

/-- Parses the comma-separated elements of a JSON array up to `]`. -/
def parseElems : Nat → List Char → Option (List JsonVal × List Char)
  | 0, _ => none
  | fuel + 1, cs =>
    match parseVal fuel cs with
    | some (v, rest) =>
      match skipWs rest with
      | ',' :: rest2 =>
        match parseElems fuel rest2 with
        | some (vs, rest3) => some (v :: vs, rest3)
        | none => none
      | ']' :: rest2 => some ([v], rest2)
      | _ => none
    | none => none

/-- Parses the comma-separated key/value members of a JSON object up to the
closing brace. -/
def parseFields : Nat → List Char → Option (List (String × JsonVal) × List Char)
  | 0, _ => none
  | fuel + 1, cs =>
    match skipWs cs with
    | '"' :: rest =>
      match parseStringChars (fuel + 1) rest with
      | some (key, rest2) =>
        match skipWs rest2 with
        | ':' :: rest3 =>
          match parseVal fuel rest3 with
          | some (v, rest4) =>
            match skipWs rest4 with
            | [] => none
            | c :: rest5 =>
              if c == ',' then
                match parseFields fuel rest5 with
                | some (fs, rest6) => some ((String.mk key, v) :: fs, rest6)
                | none => none
              else if c == rbrace then
                some ([(String.mk key, v)], rest5)
              else none
          | none => none
        | _ => none
      | none => none
    | _ => none

end

/-- Modelled from the spec: `JSON.parse` on a request argument given as a
string; the whole string must be one JSON value. -/
def parseJson (s : String) : Option JsonVal :=
  match parseVal (s.length + 1) s.data with
  | some (v, rest) => if (skipWs rest).isEmpty then some v else none
  | none => none

/-- The kind of value a typed accessor requests: `getObject` or `getArray`. -/
inductive ArgKind where
  | objectKind
  | arrayKind
deriving DecidableEq

/-- Does a JSON value have the requested kind? -/
def kindMatches : ArgKind → JsonVal → Bool
  | .objectKind, .obj _ => true
  | .arrayKind, .arr _ => true
  | _, _ => false

/-- The type-mismatch API error of the typed accessors. -/
inductive ApiError where
  | typeMismatch (argName : String)
deriving DecidableEq

/-- Modelled from the spec: `getTypedArgument(name, kind, default)` — returns
the default when the argument is absent; returns the value when it has the
requested kind; otherwise, under the HTTP protocol only, a string value is
JSON-parsed and returned when the parse yields the requested kind; every
other case is a type-mismatch error. -/
def getTypedArgument (protocol : String) (args : List (String × JsonVal))
    (nm : String) (kind : ArgKind) (deflt : JsonVal) : Except ApiError JsonVal :=
  match args.lookup nm with
  | none => .ok deflt
  | some v =>
    if kindMatches kind v then .ok v
    else if protocol = "http" then
      match v with
      | .str s =>
        match parseJson s with
        | some j => if kindMatches kind j then .ok j else .error (.typeMismatch nm)
        | none => .error (.typeMismatch nm)
      | _ => .error (.typeMismatch nm)
    else .error (.typeMismatch nm)

/-- `KuzzleRequest.getObject(name, def)`. -/
def getObject (protocol : String) (args : List (String × JsonVal)) (nm : String)
    (deflt : JsonVal) : Except ApiError JsonVal :=
  getTypedArgument protocol args nm .objectKind deflt

/-- `KuzzleRequest.getArray(name, def)`. -/
def getArray (protocol : String) (args : List (String × JsonVal)) (nm : String)
    (deflt : JsonVal) : Except ApiError JsonVal :=
  getTypedArgument protocol args nm .arrayKind deflt

/-!
Theorems.
-/

/-- C2: for every controller name and definition (and every controller
instance), calling `register` or `use` once the application has started
throws the `already_started` runtime error and leaves the application state
untouched — neither call succeeds. -/
theorem register_use_rejected_after_start (app : ApplicationState) (cname : String)
    (d : ControllerDefinition) (c : Controller) (h : app.started = true) :
    register app cname d = (some (KError.runtime "already_started" "controller"), app) ∧
    use app c = (some (KError.runtime "already_started" "controller"), app) := by
  constructor <;> simp [register, use, h]

theorem register_use_rejected_after_start_witness :
    (⟨true, []⟩ : ApplicationState).started = true ∧
    register ⟨true, []⟩ "email" ⟨[]⟩ =
      (some (KError.runtime "already_started" "controller"), ⟨true, []⟩) ∧
    use ⟨true, []⟩ ⟨some "email", "EmailController", [], ⟨[]⟩⟩ =
      (some (KError.runtime "already_started" "controller"), ⟨true, []⟩) :=
  ⟨rfl,
   (register_use_rejected_after_start ⟨true, []⟩ "email" ⟨[]⟩
     ⟨some "email", "EmailController", [], ⟨[]⟩⟩ rfl).1,
   (register_use_rejected_after_start ⟨true, []⟩ "email" ⟨[]⟩
     ⟨some "email", "EmailController", [], ⟨[]⟩⟩ rfl).2⟩

/-- C10: the started check is evaluated before any validation — on a started
application, `register` and `use` throw `already_started` even when the name
duplicates an existing controller and the definition has a non-function
handler. -/
theorem started_check_has_precedence (app : ApplicationState) (cname : String)
    (d : ControllerDefinition) (c : Controller)
    (h : app.started = true)
    (hdup : (app.controllers.lookup cname).isSome = true)
    (hbad : d.actions.any (fun a => !a.2.handler.isFunction) = true)
    (hdup2 : (app.controllers.lookup c.resolvedName).isSome = true)
    (hbad2 : c.definition.actions.any (fun a => !a.2.handler.isFunction) = true) :
    (register app cname d).1 = some (KError.runtime "already_started" "controller") ∧
    (use app c).1 = some (KError.runtime "already_started" "controller") := by
  constructor <;> simp [register, use, h]

theorem started_check_has_precedence_witness :
    (⟨true, [("foo", ⟨[]⟩)]⟩ : ApplicationState).started = true ∧
    ((⟨true, [("foo", ⟨[]⟩)]⟩ : ApplicationState).controllers.lookup "foo").isSome = true ∧
    (⟨[("a", ⟨Handler.notAFunction⟩)]⟩ : ControllerDefinition).actions.any
      (fun a => !a.2.handler.isFunction) = true ∧
    (register ⟨true, [("foo", ⟨[]⟩)]⟩ "foo" ⟨[("a", ⟨Handler.notAFunction⟩)]⟩).1 =
      some (KError.runtime "already_started" "controller") ∧
    (use ⟨true, [("foo", ⟨[]⟩)]⟩
      ⟨some "foo", "FooController", [], ⟨[("a", ⟨Handler.notAFunction⟩)]⟩⟩).1 =
      some (KError.runtime "already_started" "controller") :=
  ⟨rfl, rfl, rfl,
   (started_check_has_precedence ⟨true, [("foo", ⟨[]⟩)]⟩ "foo"
     ⟨[("a", ⟨Handler.notAFunction⟩)]⟩
     ⟨some "foo", "FooController", [], ⟨[("a", ⟨Handler.notAFunction⟩)]⟩⟩
     rfl rfl rfl rfl rfl).1,
   (started_check_has_precedence ⟨true, [("foo", ⟨[]⟩)]⟩ "foo"
     ⟨[("a", ⟨Handler.notAFunction⟩)]⟩
     ⟨some "foo", "FooController", [], ⟨[("a", ⟨Handler.notAFunction⟩)]⟩⟩
     rfl rfl rfl rfl rfl).2⟩

/-- C9: controller registration is atomic on the `_controllers` map — whenever
`register` or `use` reports an error, the map after the call is exactly the
map before it. -/
theorem registration_error_leaves_controllers (app : ApplicationState) (cname : String)
    (d : ControllerDefinition) (c : Controller) (e1 e2 : KError) :
    ((register app cname d).1 = some e1 →
      (register app cname d).2.controllers = app.controllers) ∧
    ((use app c).1 = some e2 →
      (use app c).2.controllers = app.controllers) := by
  constructor
  · intro herr
    by_cases hs : app.started
    · simp [register, hs]
    · cases hchk : checkControllerDefinition cname d with
      | some e => simp [register, hs, hchk]
      | none =>
        by_cases hdup : (app.controllers.lookup cname).isSome
        · simp [register, hs, hchk, add, hdup]
        · simp [register, hs, hchk, add, hdup] at herr
  · intro herr
    by_cases hs : app.started
    · simp [use, hs]
    · cases hchk : checkControllerDefinition c.resolvedName c.definition with
      | some e => simp [use, hs, hchk]
      | none =>
        cases hb : bindActions c c.resolvedName c.definition.actions with
        | error e => simp [use, hs, hchk, hb]
        | ok outActions =>
          by_cases hdup : (app.controllers.lookup c.resolvedName).isSome
          · simp [use, hs, hchk, hb, add, hdup]
          · simp [use, hs, hchk, hb, add, hdup] at herr

theorem registration_error_leaves_controllers_witness :
    (register ⟨true, [("k", ⟨[]⟩)]⟩ "x" ⟨[]⟩).1 =
      some (KError.runtime "already_started" "controller") ∧
    (register ⟨true, [("k", ⟨[]⟩)]⟩ "x" ⟨[]⟩).2.controllers = [("k", ⟨[]⟩)] ∧
    (use ⟨true, [("k", ⟨[]⟩)]⟩ ⟨some "x", "XController", [], ⟨[]⟩⟩).2.controllers =
      [("k", ⟨[]⟩)] :=
  ⟨rfl,
   (registration_error_leaves_controllers ⟨true, [("k", ⟨[]⟩)]⟩ "x" ⟨[]⟩
     ⟨some "x", "XController", [], ⟨[]⟩⟩
     (KError.runtime "already_started" "controller")
     (KError.runtime "already_started" "controller")).1 rfl,
   (registration_error_leaves_controllers ⟨true, [("k", ⟨[]⟩)]⟩ "x" ⟨[]⟩
     ⟨some "x", "XController", [], ⟨[]⟩⟩
     (KError.runtime "already_started" "controller")
     (KError.runtime "already_started" "controller")).2 rfl⟩

/-- A definition all of whose handlers are functions passes
`checkControllerDefinition`. -/
theorem checkControllerDefinition_none (cname : String) (d : ControllerDefinition)
    (hok : d.actions.all (fun a => a.2.handler.isFunction) = true) :
    checkControllerDefinition cname d = none := by
  have hfind : d.actions.find? (fun a => !a.2.handler.isFunction) = none := by
    rw [List.find?_eq_none]
    intro a ha
    have := List.all_eq_true.mp hok a ha
    simp [this]
  simp [checkControllerDefinition, hfind]

/-- The handler-binding loop of `use` succeeds when every handler is a
function. -/
theorem bindActions_ok (c : Controller) (cname : String) :
    ∀ l : List (String × ActionDefinition),
      l.all (fun a => a.2.handler.isFunction) = true →
      ∃ out, bindActions c cname l = .ok out := by
  intro l
  induction l with
  | nil => exact fun _ => ⟨[], rfl⟩
  | cons hd tl ih =>
    intro hall
    obtain ⟨action, adef⟩ := hd
    rw [List.all_cons] at hall
    obtain ⟨h1, h2⟩ := Bool.and_eq_true_iff.mp hall
    obtain ⟨out, hout⟩ := ih h2
    cases hh : adef.handler with
    | notAFunction => rw [hh] at h1; simp [Handler.isFunction] at h1
    | jsFunction fname bound =>
      refine ⟨(action, ⟨if !fname.isEmpty && c.methods.contains fname then
        Handler.jsFunction fname true else Handler.jsFunction fname bound⟩) :: out, ?_⟩
      simp [bindActions, hh, hout]

/-- C3 counterexample: with the application already started and a controller
named "foo" already registered, `register "foo"` throws the `already_started`
runtime error, not the duplicate-name assertion error the claim requires for
every such call. -/
theorem duplicate_name_claim_counterexample :
    ((⟨true, [("foo", ⟨[]⟩)]⟩ : ApplicationState).controllers.lookup "foo").isSome = true ∧
    (register ⟨true, [("foo", ⟨[]⟩)]⟩ "foo" ⟨[]⟩).1 ≠
      some (KError.assertion "invalid_controller_definition" "foo"
        "A controller with this name already exists") := by
  constructor
  · rfl
  · decide

/-- C3 (amended): before the application has started, and when every declared
handler is a function (so the definition check passes), a name that already
has an entry in the controller map makes `register` — and `use` with a
controller resolving to that name — throw the duplicate-name
`invalid_controller_definition` assertion error, and no controller is
registered by the call. -/
theorem duplicate_name_rejected (app : ApplicationState) (cname : String)
    (d : ControllerDefinition) (c : Controller)
    (hs : app.started = false)
    (hdup : (app.controllers.lookup cname).isSome = true)
    (hok : d.actions.all (fun a => a.2.handler.isFunction) = true)
    (hname : c.resolvedName = cname)
    (hok2 : c.definition.actions.all (fun a => a.2.handler.isFunction) = true) :
    register app cname d = (some (KError.assertion "invalid_controller_definition" cname
      "A controller with this name already exists"), app) ∧
    use app c = (some (KError.assertion "invalid_controller_definition" cname
      "A controller with this name already exists"), app) := by
  constructor
  · simp [register, hs, checkControllerDefinition_none cname d hok, add, hdup]
  · obtain ⟨out, hout⟩ := bindActions_ok c c.resolvedName c.definition.actions hok2
    rw [hname] at hout
    simp [use, hs, hname, checkControllerDefinition_none cname c.definition hok2,
      hout, add, hdup]

theorem duplicate_name_rejected_witness :
    (⟨false, [("foo", ⟨[]⟩)]⟩ : ApplicationState).started = false ∧
    ((⟨false, [("foo", ⟨[]⟩)]⟩ : ApplicationState).controllers.lookup "foo").isSome = true ∧
    register ⟨false, [("foo", ⟨[]⟩)]⟩ "foo" ⟨[("a", ⟨Handler.jsFunction "h" false⟩)]⟩ =
      (some (KError.assertion "invalid_controller_definition" "foo"
        "A controller with this name already exists"), ⟨false, [("foo", ⟨[]⟩)]⟩) ∧
    use ⟨false, [("foo", ⟨[]⟩)]⟩
      ⟨some "foo", "FooController", [], ⟨[("a", ⟨Handler.jsFunction "h" false⟩)]⟩⟩ =
      (some (KError.assertion "invalid_controller_definition" "foo"
        "A controller with this name already exists"), ⟨false, [("foo", ⟨[]⟩)]⟩) :=
  ⟨rfl, rfl,
   (duplicate_name_rejected ⟨false, [("foo", ⟨[]⟩)]⟩ "foo"
     ⟨[("a", ⟨Handler.jsFunction "h" false⟩)]⟩
     ⟨some "foo", "FooController", [], ⟨[("a", ⟨Handler.jsFunction "h" false⟩)]⟩⟩
     rfl rfl rfl rfl rfl).1,
   (duplicate_name_rejected ⟨false, [("foo", ⟨[]⟩)]⟩ "foo"
     ⟨[("a", ⟨Handler.jsFunction "h" false⟩)]⟩
     ⟨some "foo", "FooController", [], ⟨[("a", ⟨Handler.jsFunction "h" false⟩)]⟩⟩
     rfl rfl rfl rfl rfl).2⟩

/-- C4: before startup, a controller instance whose actions map contains an
action with a non-function handler makes `use` throw the
`invalid_controller_definition` assertion error naming such an action, and
the controller is not added. -/
theorem use_rejects_nonfunction_handler (app : ApplicationState) (c : Controller)
    (hs : app.started = false)
    (hbad : c.definition.actions.any (fun a => !a.2.handler.isFunction) = true) :
    ∃ action, (∃ adef, (action, adef) ∈ c.definition.actions ∧
        adef.handler.isFunction = false) ∧
      (use app c).1 = some (KError.assertion "invalid_controller_definition"
        c.resolvedName ("Handler for action \"" ++ action ++ "\" is not a function.")) ∧
      (use app c).2 = app := by
  have hsome : (c.definition.actions.find? (fun a => !a.2.handler.isFunction)).isSome := by
    rw [List.find?_isSome]
    obtain ⟨a, ha, hpa⟩ := List.any_eq_true.mp hbad
    exact ⟨a, ha, hpa⟩
  obtain ⟨a, ha⟩ := Option.isSome_iff_exists.mp hsome
  have hpa := List.find?_some ha
  simp only [Bool.not_eq_true'] at hpa
  have hmem : a ∈ c.definition.actions := List.mem_of_find?_eq_some ha
  refine ⟨a.1, ⟨a.2, ?_, ?_⟩, ?_, ?_⟩
  · simpa using hmem
  · exact hpa
  · simp [use, hs, checkControllerDefinition, ha]
  · simp [use, hs, checkControllerDefinition, ha]

theorem use_rejects_nonfunction_handler_witness :
    (⟨false, []⟩ : ApplicationState).started = false ∧
    (⟨some "mail", "MailController", [],
      ⟨[("send", ⟨Handler.notAFunction⟩)]⟩⟩ : Controller).definition.actions.any
      (fun a => !a.2.handler.isFunction) = true ∧
    ∃ action, (∃ adef,
        (action, adef) ∈ (⟨some "mail", "MailController", [],
          ⟨[("send", ⟨Handler.notAFunction⟩)]⟩⟩ : Controller).definition.actions ∧
        adef.handler.isFunction = false) ∧
      (use ⟨false, []⟩ ⟨some "mail", "MailController", [],
        ⟨[("send", ⟨Handler.notAFunction⟩)]⟩⟩).1 =
        some (KError.assertion "invalid_controller_definition"
          (Controller.resolvedName ⟨some "mail", "MailController", [],
            ⟨[("send", ⟨Handler.notAFunction⟩)]⟩⟩)
          ("Handler for action \"" ++ action ++ "\" is not a function.")) ∧
      (use ⟨false, []⟩ ⟨some "mail", "MailController", [],
        ⟨[("send", ⟨Handler.notAFunction⟩)]⟩⟩).2 = ⟨false, []⟩ :=
  ⟨rfl, rfl,
   use_rejects_nonfunction_handler ⟨false, []⟩
     ⟨some "mail", "MailController", [], ⟨[("send", ⟨Handler.notAFunction⟩)]⟩⟩
     rfl rfl⟩

/-- Removing every occurrence of a document id from a scope state removes it
from containment. -/
theorem contains_filter_ne (st : List String) (d : String) :
    (st.filter (fun x => x != d)).contains d = false := by
  induction st with
  | nil => rfl
  | cons hd tl ih =>
    by_cases hh : hd = d
    · subst hh
      simp [List.filter_cons, ih]
    · have h1 : (hd != d) = true := by simp [hh]
      have h2 : (d == hd) = false := by simp [Ne.symm hh]
      simp [List.filter_cons, h1, List.contains_cons, h2, ih]
      exact Ne.symm hh

/-- C1: the scope-transition law. Starting from a Room with no ScopeEntry for
document `d1`, a write whose filter evaluation matches emits exactly one
notification with scope "in"; a subsequent non-matching write emits exactly
one notification with scope "out"; a third non-matching write emits zero
notifications. -/
theorem scope_transition_law (st : RoomScope) (f : FilterExpression) (d1 : String)
    (doc1 doc2 doc3 : Document)
    (h0 : st.contains d1 = false)
    (h1 : matchesF f doc1 = true) (h2 : matchesF f doc2 = false)
    (h3 : matchesF f doc3 = false) :
    (processEvent st f EventKind.write d1 doc1).1 = [⟨"in", d1⟩] ∧
    (processEvent (processEvent st f EventKind.write d1 doc1).2
      f EventKind.write d1 doc2).1 = [⟨"out", d1⟩] ∧
    (processEvent (processEvent (processEvent st f EventKind.write d1 doc1).2
      f EventKind.write d1 doc2).2 f EventKind.write d1 doc3).1 = [] := by
  have h0m : d1 ∉ st := by simpa using h0
  have e1 : processEvent st f EventKind.write d1 doc1 = ([⟨"in", d1⟩], d1 :: st) := by
    simp [processEvent, scopeTransition, h0m, h1]
  have e2 : processEvent (d1 :: st) f EventKind.write d1 doc2 =
      ([⟨"out", d1⟩], (d1 :: st).filter (fun x => x != d1)) := by
    simp [processEvent, scopeTransition, h2]
  have hc : d1 ∉ (d1 :: st).filter (fun x => x != d1) := by
    simp
  have e3 : (processEvent ((d1 :: st).filter (fun x => x != d1))
      f EventKind.write d1 doc3).1 = [] := by
    simp [processEvent, scopeTransition, h3, hc]
  refine ⟨by rw [e1], by rw [e1, e2], ?_⟩
  rw [e1, e2, e3]

theorem scope_transition_law_witness :
    ([] : RoomScope).contains "d1" = false ∧
    matchesF (.equalsF "city" (.str "Paris")) ⟨[("city", .str "Paris")]⟩ = true ∧
    matchesF (.equalsF "city" (.str "Paris")) ⟨[("city", .str "Lyon")]⟩ = false ∧
    (processEvent [] (.equalsF "city" (.str "Paris")) EventKind.write "d1"
      ⟨[("city", .str "Paris")]⟩).1 = [⟨"in", "d1"⟩] ∧
    (processEvent (processEvent [] (.equalsF "city" (.str "Paris")) EventKind.write "d1"
      ⟨[("city", .str "Paris")]⟩).2 (.equalsF "city" (.str "Paris")) EventKind.write "d1"
      ⟨[("city", .str "Lyon")]⟩).1 = [⟨"out", "d1"⟩] ∧
    (processEvent (processEvent (processEvent [] (.equalsF "city" (.str "Paris"))
      EventKind.write "d1" ⟨[("city", .str "Paris")]⟩).2 (.equalsF "city" (.str "Paris"))
      EventKind.write "d1" ⟨[("city", .str "Lyon")]⟩).2 (.equalsF "city" (.str "Paris"))
      EventKind.write "d1" ⟨[("city", .str "Lyon")]⟩).1 = [] :=
  ⟨rfl, rfl, rfl,
   (scope_transition_law [] (.equalsF "city" (.str "Paris")) "d1"
     ⟨[("city", .str "Paris")]⟩ ⟨[("city", .str "Lyon")]⟩ ⟨[("city", .str "Lyon")]⟩
     rfl rfl rfl rfl).1,
   (scope_transition_law [] (.equalsF "city" (.str "Paris")) "d1"
     ⟨[("city", .str "Paris")]⟩ ⟨[("city", .str "Lyon")]⟩ ⟨[("city", .str "Lyon")]⟩
     rfl rfl rfl rfl).2.1,
   (scope_transition_law [] (.equalsF "city" (.str "Paris")) "d1"
     ⟨[("city", .str "Paris")]⟩ ⟨[("city", .str "Lyon")]⟩ ⟨[("city", .str "Lyon")]⟩
     rfl rfl rfl rfl).2.2⟩

/-- Association-list lookup is stable under permutation when the keys are
distinct. -/
theorem lookup_perm_of_nodup_keys (k : String) :
    ∀ {l1 l2 : List (String × JsonVal)}, l1.Perm l2 →
      (l1.map Prod.fst).Nodup → l1.lookup k = l2.lookup k := by
  intro l1 l2 hp
  induction hp with
  | nil => intro _; rfl
  | cons x p ih =>
    intro hnd
    obtain ⟨a, b⟩ := x
    have hnd' : ((p_list_keys : List String) → True) := fun _ => trivial
    rw [List.map_cons, List.nodup_cons] at hnd
    by_cases hk : k = a
    · subst hk
      simp [List.lookup]
    · have hne : (k == a) = false := by simp [hk]
      simp [List.lookup, hne]
      exact ih hnd.2
  | swap x y t =>
    intro hnd
    obtain ⟨a, b⟩ := x
    obtain ⟨a2, b2⟩ := y
    rw [List.map_cons, List.map_cons, List.nodup_cons] at hnd
    have hne : a2 ≠ a := by
      intro hcon
      exact hnd.1 (by simp [hcon])
    by_cases hk : k = a2
    · subst hk
      have h1 : (k == a) = false := by simp [hne]
      simp [List.lookup, h1]
    · by_cases hk2 : k = a
      · subst hk2
        have h1 : (k == a2) = false := by simp [hk]
        simp [List.lookup, h1]
      · have h1 : (k == a2) = false := by simp [hk]
        have h2 : (k == a) = false := by simp [hk2]
        simp [List.lookup, h1, h2]
  | trans p1 p2 ih1 ih2 =>
    intro hnd
    have hnd2 := ((p1.map Prod.fst).nodup_iff).mp hnd
    exact (ih1 hnd).trans (ih2 hnd2)

/-- Path addressing only reads the document through key lookup, so documents
with identical lookups resolve identical paths. -/
theorem getPath_congr (d1 d2 : Document)
    (h : ∀ k, d1.fields.lookup k = d2.fields.lookup k) (p : String) :
    d1.getPath p = d2.getPath p := by
  unfold Document.getPath
  cases hp : pathSegments p with
  | nil => rfl
  | cons s rest => simp [h s]

/-- Filter evaluation only reads the document through `getPath`. -/
theorem matchesF_congr (F : FilterExpression) (d1 d2 : Document)
    (h : ∀ p, d1.getPath p = d2.getPath p) :
    matchesF F d1 = matchesF F d2 := by
  induction F with
  | equalsF p v => simp [matchesF, h p]
  | rangeF p lo loIncl hi hiIncl => simp [matchesF, h p]
  | existsF p => simp [matchesF, h p]
  | missingF p => simp [matchesF, h p]
  | textF p pat => simp [matchesF, h p]
  | geoBoundingBoxF p a b c d => simp [matchesF, h p]
  | geoDistanceF p la lo dist => simp [matchesF, h p]
  | andF l r ihl ihr => simp [matchesF, ihl, ihr]
  | orF l r ihl ihr => simp [matchesF, ihl, ihr]
  | notF f ih => simp [matchesF, ih]

/-- C6: filter evaluation is deterministic — evaluating the same filter on
the same document always returns the same boolean — and its result is
independent of the ordering of the fields of the document (documents being
JSON objects, their field names are distinct). -/
theorem matchesF_deterministic_and_field_order_independent
    (F : FilterExpression) (d1 d2 : Document)
    (hperm : d1.fields.Perm d2.fields)
    (hnd : (d1.fields.map Prod.fst).Nodup) :
    matchesF F d1 = matchesF F d1 ∧ matchesF F d1 = matchesF F d2 :=
  ⟨rfl, matchesF_congr F d1 d2
    (fun p => getPath_congr d1 d2 (fun k => lookup_perm_of_nodup_keys k hperm hnd) p)⟩

theorem matchesF_deterministic_and_field_order_independent_witness :
    (⟨[("a", JsonVal.num 1), ("b", JsonVal.num 2)]⟩ : Document).fields.Perm
      (⟨[("b", JsonVal.num 2), ("a", JsonVal.num 1)]⟩ : Document).fields ∧
    ((⟨[("a", JsonVal.num 1), ("b", JsonVal.num 2)]⟩ : Document).fields.map Prod.fst).Nodup ∧
    (matchesF (.equalsF "a" (.num 1)) ⟨[("a", JsonVal.num 1), ("b", JsonVal.num 2)]⟩ =
      matchesF (.equalsF "a" (.num 1)) ⟨[("a", JsonVal.num 1), ("b", JsonVal.num 2)]⟩ ∧
     matchesF (.equalsF "a" (.num 1)) ⟨[("a", JsonVal.num 1), ("b", JsonVal.num 2)]⟩ =
      matchesF (.equalsF "a" (.num 1)) ⟨[("b", JsonVal.num 2), ("a", JsonVal.num 1)]⟩) :=
  ⟨List.Perm.swap ("b", JsonVal.num 2) ("a", JsonVal.num 1) [],
   by decide,
   matchesF_deterministic_and_field_order_independent (.equalsF "a" (.num 1))
     ⟨[("a", JsonVal.num 1), ("b", JsonVal.num 2)]⟩ ⟨[("b", JsonVal.num 2), ("a", JsonVal.num 1)]⟩
     (List.Perm.swap ("b", JsonVal.num 2) ("a", JsonVal.num 1) []) (by decide)⟩

/-- A valid filter always registers successfully, returning the canonical
Room id. -/
theorem register_ok_exists (reg : Registry) (i c : String) (f : FilterExpression)
    (hv : f.valid = true) :
    ∃ reg2, reg.register i c f = .ok (roomIdOf i c f, reg2) := by
  unfold Registry.register
  simp only [hv, if_true]
  split
  · exact ⟨_, rfl⟩
  · exact ⟨_, rfl⟩

/-- C7: registration is idempotent on the room identifier — registering the
same filter twice in a row for the same index and collection returns the
same RoomId both times. -/
theorem register_idempotent_roomId (reg : Registry) (i c : String)
    (f : FilterExpression) (hv : f.valid = true) :
    ∃ reg1 reg2, reg.register i c f = .ok (roomIdOf i c f, reg1) ∧
      reg1.register i c f = .ok (roomIdOf i c f, reg2) := by
  obtain ⟨reg1, h1⟩ := register_ok_exists reg i c f hv
  obtain ⟨reg2, h2⟩ := register_ok_exists reg1 i c f hv
  exact ⟨reg1, reg2, h1, h2⟩

theorem register_idempotent_roomId_witness :
    (FilterExpression.equalsF "city" (.str "Paris")).valid = true ∧
    ∃ reg1 reg2,
      Registry.register ⟨[], [], 0⟩ "places" "col" (.equalsF "city" (.str "Paris")) =
        .ok (roomIdOf "places" "col" (.equalsF "city" (.str "Paris")), reg1) ∧
      reg1.register "places" "col" (.equalsF "city" (.str "Paris")) =
        .ok (roomIdOf "places" "col" (.equalsF "city" (.str "Paris")), reg2) :=
  ⟨rfl, register_idempotent_roomId ⟨[], [], 0⟩ "places" "col"
    (.equalsF "city" (.str "Paris")) rfl⟩

/-- C8: unsubscribing the last Subscriber of a Room destroys the Room, and
every subsequent `roomsFor` call — for every index and collection — excludes
the destroyed Room's id. -/
theorem last_unsubscribe_destroys_room (reg : Registry) (h : Nat) (s : Subscriber)
    (hfind : reg.subscribers.find? (fun x => x.handleId == h) = some s)
    (hlast : reg.subscribers.filter (fun x => x.roomId == s.roomId) = [s]) :
    (∀ r ∈ (reg.unsubscribe h).rooms, r.id ≠ s.roomId) ∧
    (∀ i c, s.roomId ∉ (reg.unsubscribe h).roomsFor i c) := by
  have hsh : s.handleId = h := by
    have := List.find?_some hfind
    simpa using this
  have hany : ((reg.subscribers.filter (fun x => x.handleId != h)).any
      (fun x => x.roomId == s.roomId)) = false := by
    rw [Bool.eq_false_iff]
    intro hcon
    obtain ⟨x, hx, hxr⟩ := List.any_eq_true.mp hcon
    have hx1 := (List.mem_filter.mp hx).1
    have hx2 := (List.mem_filter.mp hx).2
    have hxmem : x ∈ reg.subscribers.filter (fun y => y.roomId == s.roomId) :=
      List.mem_filter.mpr ⟨hx1, hxr⟩
    rw [hlast] at hxmem
    have hxs : x = s := by simpa using hxmem
    subst hxs
    rw [hsh] at hx2
    simp at hx2
  have hEq : reg.unsubscribe h =
      { reg with
        subscribers := reg.subscribers.filter (fun x => x.handleId != h)
        rooms := reg.rooms.filter (fun r => r.id != s.roomId) } := by
    unfold Registry.unsubscribe
    rw [hfind]
    simp [hany]
  rw [hEq]
  constructor
  · intro r hr
    have h2 := (List.mem_filter.mp hr).2
    simpa using h2
  · intro i c hmem
    unfold Registry.roomsFor at hmem
    obtain ⟨r, hr, hrid⟩ := List.mem_map.mp hmem
    have hr1 := (List.mem_filter.mp hr).1
    have h2 := (List.mem_filter.mp hr1).2
    rw [hrid] at h2
    simp at h2

theorem last_unsubscribe_destroys_room_witness :
    (⟨[⟨"room1", "places", "col", 1⟩], [⟨0, "conn", "room1", []⟩], 1⟩ :
      Registry).subscribers.find? (fun x => x.handleId == 0) =
      some ⟨0, "conn", "room1", []⟩ ∧
    (⟨[⟨"room1", "places", "col", 1⟩], [⟨0, "conn", "room1", []⟩], 1⟩ :
      Registry).subscribers.filter (fun x => x.roomId == "room1") =
      [⟨0, "conn", "room1", []⟩] ∧
    "room1" ∉ (Registry.unsubscribe
      ⟨[⟨"room1", "places", "col", 1⟩], [⟨0, "conn", "room1", []⟩], 1⟩ 0).roomsFor
      "places" "col" :=
  ⟨rfl, rfl,
   (last_unsubscribe_destroys_room
     ⟨[⟨"room1", "places", "col", 1⟩], [⟨0, "conn", "room1", []⟩], 1⟩ 0
     ⟨0, "conn", "room1", []⟩ rfl rfl).2 "places" "col"⟩

/-- C5: the typed request-argument accessor fails with a type-mismatch error
whenever the named argument is present but of the wrong kind — except that
under the HTTP protocol a string value that parses as JSON of the requested
kind is accepted and returned instead of raising the error. -/
theorem typed_argument_kind_check :
    (∀ protocol args nm kind dflt v,
      args.lookup nm = some v → kindMatches kind v = false →
      (getTypedArgument protocol args nm kind dflt = .error (.typeMismatch nm) ∨
        (protocol = "http" ∧ ∃ s j, v = JsonVal.str s ∧ parseJson s = some j ∧
          kindMatches kind j = true ∧
          getTypedArgument protocol args nm kind dflt = .ok j))) ∧
    (∀ args nm kind dflt s j,
      args.lookup nm = some (JsonVal.str s) → parseJson s = some j →
      kindMatches kind j = true →
      getTypedArgument "http" args nm kind dflt = .ok j) := by
  constructor
  · intro protocol args nm kind dflt v hl hk
    by_cases hp : protocol = "http"
    · subst hp
      cases v with
      | str s =>
        cases hj : parseJson s with
        | none => exact Or.inl (by simp [getTypedArgument, hl, hk, hj])
        | some j =>
          by_cases hkj : kindMatches kind j = true
          · exact Or.inr ⟨rfl, s, j, rfl, hj, hkj,
              by simp [getTypedArgument, hl, hk, hj, hkj]⟩
          · exact Or.inl (by
              simp only [Bool.not_eq_true] at hkj
              simp [getTypedArgument, hl, hk, hj, hkj])
      | null => exact Or.inl (by simp [getTypedArgument, hl, hk])
      | boolVal b => exact Or.inl (by simp [getTypedArgument, hl, hk])
      | num n => exact Or.inl (by simp [getTypedArgument, hl, hk])
      | arr es => exact Or.inl (by simp [getTypedArgument, hl, hk])
      | obj fs => exact Or.inl (by simp [getTypedArgument, hl, hk])
    · exact Or.inl (by simp [getTypedArgument, hl, hk, hp])
  · intro args nm kind dflt s j hl hj hkj
    have hks : kindMatches kind (JsonVal.str s) = false := by cases kind <;> rfl
    simp [getTypedArgument, hl, hks, hj, hkj]

theorem typed_argument_kind_check_witness :
    ([("a", JsonVal.num 1)].lookup "a" = some (JsonVal.num 1)) ∧
    kindMatches ArgKind.objectKind (JsonVal.num 1) = false ∧
    (getTypedArgument "websocket" [("a", JsonVal.num 1)] "a" .objectKind .null =
        .error (.typeMismatch "a") ∨
      ("websocket" = "http" ∧ ∃ s j, JsonVal.num 1 = JsonVal.str s ∧
        parseJson s = some j ∧ kindMatches ArgKind.objectKind j = true ∧
        getTypedArgument "websocket" [("a", JsonVal.num 1)] "a" .objectKind .null =
          .ok j)) ∧
    parseJson "[1]" = some (JsonVal.arr [JsonVal.num 1]) ∧
    getTypedArgument "http" [("b", JsonVal.str "[1]")] "b" .arrayKind .null =
      .ok (JsonVal.arr [JsonVal.num 1]) :=
  ⟨rfl, rfl,
   typed_argument_kind_check.1 "websocket" [("a", JsonVal.num 1)] "a" .objectKind
     .null (JsonVal.num 1) rfl rfl,
   rfl,
   typed_argument_kind_check.2 [("b", JsonVal.str "[1]")] "b" .arrayKind .null "[1]"
     (JsonVal.arr [JsonVal.num 1]) rfl rfl rfl⟩

end Kuzzle
